import Mathlib

/-!
Shallow embedding of the job-lifecycle orchestration code in
az-function/src/functions/RunContainer.js and of the blob-uploader utility
(the unnamed app.js test application).

External provider calls are modelled as explicit outcome values handed to the
functions; each function also produces a trace counting the provider calls it
issued, so that call-count properties (exactly one delete attempt, zero calls
before validation, no create when the container exists) can be stated.
An Except.error result models a raised JavaScript exception propagating out of
the function in question.
-/

/-- JS truthiness test on an environment value, as used by the source in
checks such as (!process.env[key]) and (!CONFIG.CONNECTION_STRING):
undefined (modelled as none) and the empty string are falsy. -/
def jsFalsyStr : Option String → Bool
  | none => true
  | some s => s == ""

namespace RunContainer

/-- CONFIG.POLLING_INTERVAL_MS from RunContainer.js. -/
def POLLING_INTERVAL_MS : Nat := 5000

/-- CONFIG.MAX_POLLING_ATTEMPTS from RunContainer.js. -/
def MAX_POLLING_ATTEMPTS : Nat := 120

/-- CONFIG.CLEANUP_TIMEOUT_MS from RunContainer.js. -/
def CLEANUP_TIMEOUT_MS : Nat := 30000

/-- The five required environment keys listed in validateEnv. -/
def requiredEnvKeys : List String :=
  ["AZURE_SUBSCRIPTION_ID", "RESOURCE_GROUP", "ACI_IDENTITY_ID",
   "CONTAINER_REGISTRY_SERVER", "CONTAINER_IMAGE"]

/-- validateEnv: filters the required keys whose value is JS-falsy and throws
(Except.error) with the enumerated list when any is missing. -/
def validateEnv (env : String → Option String) : Except String Unit :=
  let missing := requiredEnvKeys.filter (fun key => jsFalsyStr (env key))
  if missing.length ≠ 0 then
    Except.error ("Missing env vars: " ++ String.intercalate ", " missing)
  else
    Except.ok ()

/-- TERMINAL_STATES from RunContainer.js. -/
def TERMINAL_STATES : List String := ["Terminated", "Succeeded", "Failed"]

/-- isTerminal from RunContainer.js. -/
def isTerminal (state : String) : Bool := TERMINAL_STATES.contains state

/-- The currentState object of the first container of a queried group, when the
optional chain group.containers?.[0]?.instanceView?.currentState is present.
state none models an undefined state field; exitCode none models an absent
(null/undefined) exit code. -/
structure CurrentState where
  state : Option String
  exitCode : Option Int
deriving DecidableEq

/-- Outcome of one containerGroups.get call during polling: either the call
throws (err), or it returns a group whose currentState chain is cs (none when
some link of the optional chain is absent). -/
inductive PollOutcome where
  | err (msg : String)
  | ok (cs : Option CurrentState)
deriving DecidableEq

/-- The state and exit code the loop body computes from a successful get:
state is (... .state || "Unknown") and exitCode is (... .exitCode ?? null). -/
def observedState (cs : Option CurrentState) : String × Option Int :=
  match cs with
  | none => ("Unknown", none)
  | some c =>
    (match c.state with
     | none => "Unknown"
     | some s => if s == "" then "Unknown" else s,
     c.exitCode)

/-- Whether one poll outcome makes the loop return: a thrown get never does,
and a returned group does exactly when the observed state is terminal. -/
def observesTerminal : PollOutcome → Bool
  | PollOutcome.err _ => false
  | PollOutcome.ok cs => isTerminal (observedState cs).1

/-- The record returned by waitForContainer on success. -/
structure ContainerResult where
  state : String
  exitCode : Option Int
deriving DecidableEq

/-- Result of the polling loop together with the number of get calls issued
and the total milliseconds spent sleeping (one fixed sleep before each get). -/
structure WaitTrace where
  result : Except String ContainerResult
  getCalls : Nat
  sleepMs : Nat

/-- The body of the polling loop of waitForContainer, with fuel counting the
remaining iterations and i the absolute index of the next get call. Each
iteration sleeps POLLING_INTERVAL_MS, issues one get, logs and continues on a
thrown get, returns on a terminal observed state, and otherwise continues;
exhausted fuel models the loop ending and the timeout error being thrown. -/
def waitAux (poll : Nat → PollOutcome) : Nat → Nat → WaitTrace
  | _, 0 => ⟨Except.error "Container did not reach terminal state in time", 0, 0⟩
  | i, fuel + 1 =>
    match poll i with
    | PollOutcome.err _ =>
      let w := waitAux poll (i + 1) fuel
      ⟨w.result, w.getCalls + 1, w.sleepMs + POLLING_INTERVAL_MS⟩
    | PollOutcome.ok cs =>
      let st := observedState cs
      if isTerminal st.1 then
        ⟨Except.ok ⟨st.1, st.2⟩, 1, POLLING_INTERVAL_MS⟩
      else
        let w := waitAux poll (i + 1) fuel
        ⟨w.result, w.getCalls + 1, w.sleepMs + POLLING_INTERVAL_MS⟩

/-- waitForContainer from RunContainer.js: runs the polling loop for at most
MAX_POLLING_ATTEMPTS iterations against the provider responses poll. -/
def waitForContainer (poll : Nat → PollOutcome) : WaitTrace :=
  waitAux poll 0 MAX_POLLING_ATTEMPTS

/-- fetchLogs from RunContainer.js, applied to the outcome of the single
containers.listLogs call: on success it returns (logs?.content || "[NO LOGS]")
with the content modelled as an optional string, and on a thrown call it
returns the placeholder carrying the fetch error message; it never throws. -/
def fetchLogs (outcome : Except String (Option String)) : String :=
  match outcome with
  | Except.ok content =>
    match content with
    | none => "[NO LOGS]"
    | some s => if s == "" then "[NO LOGS]" else s
  | Except.error msg => "[LOG FETCH FAILED]: " ++ msg

/-- Outcome of the single cleanup attempt: the delete completed within the
bounded wait, the delete call errored, or the 30-second race timer won. -/
inductive CleanupOutcome where
  | completed
  | errored (msg : String)
  | timedOut
deriving DecidableEq

/-- cleanup from RunContainer.js: issues one beginDelete and races it against
the CLEANUP_TIMEOUT_MS timer; every failure is caught and recorded as a
warning (the returned option), so cleanup never throws. -/
def cleanup (outcome : CleanupOutcome) : Option String :=
  match outcome with
  | CleanupOutcome.completed => none
  | CleanupOutcome.errored msg => some ("Cleanup failed: " ++ msg)
  | CleanupOutcome.timedOut => some ("Cleanup failed: Cleanup timeout")

/-- JSON body of the HTTP response: the completion shape
(success, state, exitCode, logs) returned after a terminal run, or the
failure shape (success: false, message) built in the catch block. -/
inductive JsonBody where
  | completion (success : Bool) (state : String) (exitCode : Option Int) (logs : String)
  | failure (message : String)
deriving DecidableEq

/-- The success flag carried by a response body (the failure shape always
carries success: false). -/
def JsonBody.successOf : JsonBody → Bool
  | JsonBody.completion s _ _ _ => s
  | JsonBody.failure _ => false

/-- The HTTP response object returned by the handler. -/
structure HttpResponse where
  status : Nat
  body : JsonBody
deriving DecidableEq

/-- The behaviour of the compute provider over one request: the outcome of
createContainer (beginCreateOrUpdate plus pollUntilDone), the responses to the
successive get calls of the polling loop, the outcome of the listLogs call,
and the outcome of the cleanup race. -/
structure ProviderBehavior where
  createOutcome : Except String Unit
  poll : Nat → PollOutcome
  logOutcome : Except String (Option String)
  cleanupOutcome : CleanupOutcome

/-- Counts of provider calls issued during one request. -/
structure Trace where
  createCalls : Nat
  getCalls : Nat
  logCalls : Nat
  deleteCalls : Nat
deriving DecidableEq

/-- The RunContainer HTTP handler. validateEnv runs before the try block, so
a configuration error propagates as Except.error (a raised exception); inside
the try block, a createContainer or waitForContainer error is caught, cleanup
is run, and a 500 failure body is returned; on the normal path logs are
fetched, cleanup is run, and the status and success flag are computed from
(result.exitCode === 0). -/
def handler (env : String → Option String) (pb : ProviderBehavior) :
    Except String HttpResponse × Trace :=
  match validateEnv env with
  | Except.error msg => (Except.error msg, ⟨0, 0, 0, 0⟩)
  | Except.ok _ =>
    match pb.createOutcome with
    | Except.error msg =>
      let _warn := cleanup pb.cleanupOutcome
      (Except.ok ⟨500, JsonBody.failure msg⟩, ⟨1, 0, 0, 1⟩)
    | Except.ok _ =>
      let w := waitForContainer pb.poll
      match w.result with
      | Except.error msg =>
        let _warn := cleanup pb.cleanupOutcome
        (Except.ok ⟨500, JsonBody.failure msg⟩, ⟨1, w.getCalls, 0, 1⟩)
      | Except.ok r =>
        let logs := fetchLogs pb.logOutcome
        let _warn := cleanup pb.cleanupOutcome
        (Except.ok ⟨if r.exitCode = some 0 then 200 else 500,
           JsonBody.completion (decide (r.exitCode = some 0)) r.state r.exitCode logs⟩,
         ⟨1, w.getCalls, 1, 1⟩)

/-- An environment with every key set to a non-empty value. -/
def envAll : String → Option String := fun _ => some "x"

/-- An environment with every key unset. -/
def envNone : String → Option String := fun _ => none

/-- Provider behaviour whose first poll reports the terminal state Succeeded
with exit code 0 and whose other calls succeed. -/
def pbTerm0 : ProviderBehavior :=
  ⟨Except.ok (), fun _ => PollOutcome.ok (some ⟨some "Succeeded", some 0⟩),
   Except.ok (some "LOGS"), CleanupOutcome.completed⟩

/-- Provider behaviour whose first poll reports the terminal state Failed
with exit code 0. -/
def pbFailed0 : ProviderBehavior :=
  ⟨Except.ok (), fun _ => PollOutcome.ok (some ⟨some "Failed", some 0⟩),
   Except.ok (some "LOGS"), CleanupOutcome.completed⟩

/-- Provider behaviour like pbTerm0 but whose listLogs call throws. -/
def pbLogErr : ProviderBehavior :=
  ⟨Except.ok (), fun _ => PollOutcome.ok (some ⟨some "Succeeded", some 0⟩),
   Except.error "boom", CleanupOutcome.completed⟩

/-- A provider whose every get call throws. -/
def pollErrAll : Nat → PollOutcome := fun _ => PollOutcome.err "x"

end RunContainer

namespace BlobApp

/-- createBlobServiceClient from the blob-uploader app.js: throws when the
connection string is JS-falsy, before any storage call is made. -/
def createBlobServiceClient (connStr : Option String) : Except String Unit :=
  if jsFalsyStr connStr then
    Except.error "AZURE_STORAGE_CONNECTION_STRING is not set"
  else
    Except.ok ()

/-- The behaviour of the storage provider over one run of the blob uploader:
outcomes of containerClient.exists(), containerClient.create() and
blockBlobClient.uploadData. -/
structure BlobProvider where
  existsOutcome : Except String Bool
  createOutcome : Except String Unit
  uploadOutcome : Except String Unit

/-- Counts of storage calls issued during one run of the blob uploader. -/
structure BlobTrace where
  existsCalls : Nat
  createCalls : Nat
  uploadCalls : Nat
deriving DecidableEq

/-- ensureContainerExists from app.js: one exists() call; when it reports the
container absent, one create() call; any thrown call propagates. Returns the
step outcome together with the exists and create call counts. -/
def ensureContainerExists (bp : BlobProvider) : Except String Unit × Nat × Nat :=
  match bp.existsOutcome with
  | Except.error m => (Except.error m, 1, 0)
  | Except.ok true => (Except.ok (), 1, 0)
  | Except.ok false =>
    match bp.createOutcome with
    | Except.error m => (Except.error m, 1, 1)
    | Except.ok _ => (Except.ok (), 1, 1)

/-- main from app.js: client creation, ensure-container, then one upload; any
thrown step reaches the catch block and the process exits with code 1,
otherwise it exits with code 0. Returns the exit code and the call trace. -/
def main (connStr : Option String) (bp : BlobProvider) : Nat × BlobTrace :=
  match createBlobServiceClient connStr with
  | Except.error _ => (1, ⟨0, 0, 0⟩)
  | Except.ok _ =>
    match ensureContainerExists bp with
    | (Except.error _, ec, cc) => (1, ⟨ec, cc, 0⟩)
    | (Except.ok _, ec, cc) =>
      match bp.uploadOutcome with
      | Except.error _ => (1, ⟨ec, cc, 1⟩)
      | Except.ok _ => (0, ⟨ec, cc, 1⟩)

end BlobApp

namespace RunContainer

/-! Helper lemmas about the polling loop. -/

theorem waitAux_getCalls_le (poll : Nat → PollOutcome) (fuel i : Nat) :
    (waitAux poll i fuel).getCalls ≤ fuel := by
  induction fuel generalizing i with
  | zero => simp [waitAux]
  | succ n ih =>
    simp only [waitAux]
    cases poll i with
    | err m => simpa using Nat.succ_le_succ (ih (i + 1))
    | ok cs =>
      cases ht : isTerminal (observedState cs).1 with
      | false => simpa [ht] using Nat.succ_le_succ (ih (i + 1))
      | true => simp [ht]

theorem waitAux_sleepMs (poll : Nat → PollOutcome) (fuel i : Nat) :
    (waitAux poll i fuel).sleepMs =
      POLLING_INTERVAL_MS * (waitAux poll i fuel).getCalls := by
  induction fuel generalizing i with
  | zero => simp [waitAux]
  | succ n ih =>
    simp only [waitAux]
    cases poll i with
    | err m => simp [ih (i + 1), Nat.mul_succ]
    | ok cs =>
      cases ht : isTerminal (observedState cs).1 with
      | false => simp [ht, ih (i + 1), Nat.mul_succ]
      | true => simp [ht]

theorem waitAux_timeout (poll : Nat → PollOutcome) (fuel i : Nat)
    (h : ∀ j, j < fuel → observesTerminal (poll (i + j)) = false) :
    waitAux poll i fuel =
      ⟨Except.error "Container did not reach terminal state in time", fuel,
       POLLING_INTERVAL_MS * fuel⟩ := by
  induction fuel generalizing i with
  | zero => simp [waitAux]
  | succ n ih =>
    have h0 : observesTerminal (poll i) = false := by simpa using h 0 (Nat.succ_pos n)
    have hrest : ∀ j, j < n → observesTerminal (poll (i + 1 + j)) = false := by
      intro j hj
      have hx := h (j + 1) (Nat.succ_lt_succ hj)
      have harith : i + (j + 1) = i + 1 + j := by omega
      rwa [harith] at hx
    simp only [waitAux]
    cases hp : poll i with
    | err m => simp [ih (i + 1) hrest, Nat.mul_succ]
    | ok cs =>
      have ht : isTerminal (observedState cs).1 = false := by
        simpa [observesTerminal, hp] using h0
      simp [ht, ih (i + 1) hrest, Nat.mul_succ]

theorem waitAux_reaches (poll : Nat → PollOutcome) (fuel i k : Nat)
    (cs : Option CurrentState) (hk : k < fuel)
    (h : ∀ j, j < k → observesTerminal (poll (i + j)) = false)
    (hp : poll (i + k) = PollOutcome.ok cs)
    (ht : isTerminal (observedState cs).1 = true) :
    (waitAux poll i fuel).result =
      Except.ok ⟨(observedState cs).1, (observedState cs).2⟩ ∧
    (waitAux poll i fuel).getCalls = k + 1 := by
  induction fuel generalizing i k with
  | zero => exact absurd hk (Nat.not_lt_zero k)
  | succ n ih =>
    cases k with
    | zero =>
      have hp0 : poll i = PollOutcome.ok cs := by simpa using hp
      simp only [waitAux]
      simp [hp0, ht]
    | succ k =>
      have h0 : observesTerminal (poll i) = false := by simpa using h 0 (Nat.succ_pos k)
      have hrest : ∀ j, j < k → observesTerminal (poll (i + 1 + j)) = false := by
        intro j hj
        have hx := h (j + 1) (Nat.succ_lt_succ hj)
        have harith : i + (j + 1) = i + 1 + j := by omega
        rwa [harith] at hx
      have hp' : poll (i + 1 + k) = PollOutcome.ok cs := by
        have harith : i + (k + 1) = i + 1 + k := by omega
        rwa [harith] at hp
      have hrec := ih (i + 1) k (Nat.lt_of_succ_lt_succ hk) hrest hp'
      simp only [waitAux]
      cases hq : poll i with
      | err m => simp [hrec.1, hrec.2]
      | ok cs' =>
        have htq : isTerminal (observedState cs').1 = false := by
          simpa [observesTerminal, hq] using h0
        simp [htq, hrec.1, hrec.2]

theorem waitAux_ok_terminal (poll : Nat → PollOutcome) (fuel i : Nat)
    (r : ContainerResult) (h : (waitAux poll i fuel).result = Except.ok r) :
    isTerminal r.state = true := by
  induction fuel generalizing i with
  | zero => simp [waitAux] at h
  | succ n ih =>
    simp only [waitAux] at h
    cases hp : poll i with
    | err m =>
      rw [hp] at h
      exact ih (i + 1) (by simpa using h)
    | ok cs =>
      rw [hp] at h
      cases ht : isTerminal (observedState cs).1 with
      | false =>
        simp only [ht, Bool.false_eq_true, if_false] at h
        exact ih (i + 1) h
      | true =>
        simp only [ht, if_true] at h
        rw [Except.ok.injEq] at h
        rw [← h]
        exact ht

/-- Reduction of the handler on the normal path: validation ok, create ok,
polling reached a terminal result r. -/
theorem handler_completion (env : String → Option String) (pb : ProviderBehavior)
    (r : ContainerResult)
    (hv : validateEnv env = Except.ok ()) (hc : pb.createOutcome = Except.ok ())
    (hw : (waitForContainer pb.poll).result = Except.ok r) :
    handler env pb =
      (Except.ok ⟨if r.exitCode = some 0 then 200 else 500,
         JsonBody.completion (decide (r.exitCode = some 0)) r.state r.exitCode
           (fetchLogs pb.logOutcome)⟩,
       ⟨1, (waitForContainer pb.poll).getCalls, 1, 1⟩) := by
  unfold handler
  rw [hv, hc]
  simp only []
  rw [hw]

/-- Reduction of the handler when createContainer throws. -/
theorem handler_createError (env : String → Option String) (pb : ProviderBehavior)
    (m : String) (hv : validateEnv env = Except.ok ())
    (hc : pb.createOutcome = Except.error m) :
    handler env pb = (Except.ok ⟨500, JsonBody.failure m⟩, ⟨1, 0, 0, 1⟩) := by
  unfold handler
  rw [hv, hc]

/-- Reduction of the handler when polling ends in the timeout error. -/
theorem handler_waitError (env : String → Option String) (pb : ProviderBehavior)
    (m : String) (hv : validateEnv env = Except.ok ())
    (hc : pb.createOutcome = Except.ok ())
    (hw : (waitForContainer pb.poll).result = Except.error m) :
    handler env pb =
      (Except.ok ⟨500, JsonBody.failure m⟩,
       ⟨1, (waitForContainer pb.poll).getCalls, 0, 1⟩) := by
  unfold handler
  rw [hv, hc]
  simp only []
  rw [hw]

/-- C1: for every completed run (validation passed, the create succeeded and
the polling loop observed a terminal result r), the response has
success = true and status 200 exactly when the reported exit code equals 0;
in particular a terminal state with an absent exit code yields
success = false and status 500. -/
theorem completed_run_success_iff_exit_zero (env : String → Option String)
    (pb : ProviderBehavior) (r : ContainerResult)
    (hv : validateEnv env = Except.ok ()) (hc : pb.createOutcome = Except.ok ())
    (hw : (waitForContainer pb.poll).result = Except.ok r) :
    ∃ resp : HttpResponse, (handler env pb).1 = Except.ok resp ∧
      ((resp.status = 200 ∧ resp.body.successOf = true) ↔ r.exitCode = some 0) ∧
      (r.exitCode = none → resp.status = 500 ∧ resp.body.successOf = false) := by
  refine ⟨⟨if r.exitCode = some 0 then 200 else 500,
      JsonBody.completion (decide (r.exitCode = some 0)) r.state r.exitCode
        (fetchLogs pb.logOutcome)⟩, ?_, ?_, ?_⟩
  · rw [handler_completion env pb r hv hc hw]
  · by_cases hx : r.exitCode = some 0
    · simp [hx, JsonBody.successOf]
    · simp [hx, JsonBody.successOf]
  · intro hn
    have hx : ¬ r.exitCode = some 0 := by rw [hn]; simp
    simp [hx, JsonBody.successOf]

/-- Witness for C1 at a run whose terminal result is Succeeded with exit 0. -/
theorem completed_run_success_iff_exit_zero_witness :
    ∃ resp : HttpResponse, (handler envAll pbTerm0).1 = Except.ok resp ∧
      ((resp.status = 200 ∧ resp.body.successOf = true) ↔
        (some 0 : Option Int) = some 0) ∧
      ((some 0 : Option Int) = none → resp.status = 500 ∧ resp.body.successOf = false) :=
  completed_run_success_iff_exit_zero envAll pbTerm0 ⟨"Succeeded", some 0⟩ rfl rfl rfl

/-- C2: whenever validation passes (so the job create request is issued),
exactly one delete attempt is issued before the request completes, on the
successful path, the non-zero-exit path, the polling-timeout path and the
submission-failure path alike. -/
theorem delete_attempted_exactly_once (env : String → Option String)
    (pb : ProviderBehavior) (hv : validateEnv env = Except.ok ()) :
    (handler env pb).2.deleteCalls = 1 ∧ (handler env pb).2.createCalls = 1 := by
  cases hc : pb.createOutcome with
  | error m => rw [handler_createError env pb m hv hc]; exact ⟨rfl, rfl⟩
  | ok u =>
    have hc' : pb.createOutcome = Except.ok () := hc
    cases hw : (waitForContainer pb.poll).result with
    | error m => rw [handler_waitError env pb m hv hc' hw]; exact ⟨rfl, rfl⟩
    | ok r => rw [handler_completion env pb r hv hc' hw]; exact ⟨rfl, rfl⟩

/-- Witness for C2 at a concrete successful run. -/
theorem delete_attempted_exactly_once_witness :
    (handler envAll pbTerm0).2.deleteCalls = 1 ∧
    (handler envAll pbTerm0).2.createCalls = 1 :=
  delete_attempted_exactly_once envAll pbTerm0 rfl

/-- C3: the polling loop issues at most 120 status queries, each preceded by
one fixed 5000 ms sleep (total sleep is 5000 ms per query issued); when none
of the first 120 provider responses is a terminal observation (thrown queries
included, which do not abort the loop), the loop ends by raising the timeout
error after exactly 120 queries rather than looping forever; and when the
first terminal observation is the response to query k (after k inconclusive
responses, thrown queries included), the loop returns that observation after
exactly k + 1 queries. -/
theorem polling_budget_and_timeout (poll : Nat → PollOutcome) :
    (waitForContainer poll).getCalls ≤ 120 ∧
    (waitForContainer poll).sleepMs = 5000 * (waitForContainer poll).getCalls ∧
    ((∀ j, j < 120 → observesTerminal (poll j) = false) →
      waitForContainer poll =
        ⟨Except.error "Container did not reach terminal state in time",
         120, 600000⟩) ∧
    (∀ k cs, k < 120 → (∀ j, j < k → observesTerminal (poll j) = false) →
      poll k = PollOutcome.ok cs → isTerminal (observedState cs).1 = true →
      (waitForContainer poll).result =
        Except.ok ⟨(observedState cs).1, (observedState cs).2⟩ ∧
      (waitForContainer poll).getCalls = k + 1) := by
  refine ⟨waitAux_getCalls_le poll 120 0, waitAux_sleepMs poll 120 0, ?_, ?_⟩
  · intro h
    exact waitAux_timeout poll 120 0
      (by intro j hj; rw [Nat.zero_add]; exact h j hj)
  · intro k cs hk h hp ht
    exact waitAux_reaches poll 120 0 k cs hk
      (by intro j hj; rw [Nat.zero_add]; exact h j hj)
      (by rw [Nat.zero_add]; exact hp) ht

/-- Witness for C3: a provider whose every query throws exhausts the budget
and ends with the timeout error after exactly 120 queries and 600000 ms of
sleeping. -/
theorem polling_budget_and_timeout_witness :
    waitForContainer pollErrAll =
      ⟨Except.error "Container did not reach terminal state in time",
       120, 600000⟩ :=
  (polling_budget_and_timeout pollErrAll).2.2.1 (fun _ _ => rfl)

/-- C4 (counterexample): with every required key unset, the handler does not
return a response at all: validateEnv runs before the try block, so the
configuration error escapes the handler as a raised exception instead of
being mapped to a JSON error body. -/
theorem config_error_propagates_raw :
    (handler envNone pbTerm0).1 = Except.error
      "Missing env vars: AZURE_SUBSCRIPTION_ID, RESOURCE_GROUP, ACI_IDENTITY_ID, CONTAINER_REGISTRY_SERVER, CONTAINER_IMAGE" :=
  rfl

/-- C4 (amended): for every request whose required configuration is present,
the handler returns a JSON body (the completion shape or the failure shape)
with status 200 or 500 and never propagates an exception; a missing required
configuration value instead makes the handler raise before any remote call,
leaving the platform host to surface the failure. -/
theorem valid_config_always_json_body (env : String → Option String)
    (pb : ProviderBehavior) (hv : validateEnv env = Except.ok ()) :
    ∃ resp : HttpResponse, (handler env pb).1 = Except.ok resp ∧
      (resp.status = 200 ∨ resp.status = 500) := by
  cases hc : pb.createOutcome with
  | error m =>
    exact ⟨⟨500, JsonBody.failure m⟩,
      by rw [handler_createError env pb m hv hc], Or.inr rfl⟩
  | ok u =>
    have hc' : pb.createOutcome = Except.ok () := hc
    cases hw : (waitForContainer pb.poll).result with
    | error m =>
      exact ⟨⟨500, JsonBody.failure m⟩,
        by rw [handler_waitError env pb m hv hc' hw], Or.inr rfl⟩
    | ok r =>
      refine ⟨⟨if r.exitCode = some 0 then 200 else 500,
        JsonBody.completion (decide (r.exitCode = some 0)) r.state r.exitCode
          (fetchLogs pb.logOutcome)⟩,
        by rw [handler_completion env pb r hv hc' hw], ?_⟩
      by_cases hx : r.exitCode = some 0
      · left; simp [hx]
      · right; simp [hx]

/-- Witness for the amended C4 at a concrete successful run. -/
theorem valid_config_always_json_body_witness :
    ∃ resp : HttpResponse, (handler envAll pbTerm0).1 = Except.ok resp ∧
      (resp.status = 200 ∨ resp.status = 500) :=
  valid_config_always_json_body envAll pbTerm0 rfl

/-- C5: when any one of the five required keys is missing, validation fails
with a message enumerating exactly the missing key names, the handler raises
that failure having made zero provider calls, and every missing required key
appears in the enumerated list. -/
theorem missing_env_fails_before_any_call (env : String → Option String)
    (pb : ProviderBehavior)
    (hmiss : requiredEnvKeys.any (fun k => jsFalsyStr (env k)) = true) :
    validateEnv env = Except.error ("Missing env vars: " ++
      String.intercalate ", "
        (requiredEnvKeys.filter (fun k => jsFalsyStr (env k)))) ∧
    handler env pb = (Except.error ("Missing env vars: " ++
      String.intercalate ", "
        (requiredEnvKeys.filter (fun k => jsFalsyStr (env k)))),
      ⟨0, 0, 0, 0⟩) ∧
    ∀ k, k ∈ requiredEnvKeys → jsFalsyStr (env k) = true →
      k ∈ requiredEnvKeys.filter (fun k => jsFalsyStr (env k)) := by
  have hlen : (requiredEnvKeys.filter (fun k => jsFalsyStr (env k))).length ≠ 0 := by
    rw [List.any_eq_true] at hmiss
    obtain ⟨k, hk, hfk⟩ := hmiss
    have hmem : k ∈ requiredEnvKeys.filter (fun k => jsFalsyStr (env k)) :=
      List.mem_filter.mpr ⟨hk, hfk⟩
    intro h0
    rw [List.length_eq_zero] at h0
    rw [h0] at hmem
    exact absurd hmem (List.not_mem_nil k)
  have hval : validateEnv env = Except.error ("Missing env vars: " ++
      String.intercalate ", "
        (requiredEnvKeys.filter (fun k => jsFalsyStr (env k)))) := by
    unfold validateEnv
    simp only []
    rw [if_pos hlen]
  refine ⟨hval, ?_, ?_⟩
  · unfold handler
    rw [hval]
  · intro k hk hf
    exact List.mem_filter.mpr ⟨hk, hf⟩

/-- Witness for C5 at the fully unset environment. -/
theorem missing_env_fails_before_any_call_witness :
    validateEnv envNone = Except.error ("Missing env vars: " ++
      String.intercalate ", "
        (requiredEnvKeys.filter (fun k => jsFalsyStr (envNone k)))) ∧
    handler envNone pbTerm0 = (Except.error ("Missing env vars: " ++
      String.intercalate ", "
        (requiredEnvKeys.filter (fun k => jsFalsyStr (envNone k)))),
      ⟨0, 0, 0, 0⟩) := by
  have h := missing_env_fails_before_any_call envNone pbTerm0 rfl
  exact ⟨h.1, h.2.1⟩

/-- C6: the reported response is exactly the one computed before cleanup ran:
it is the same whether the delete completed, errored or timed out; and a
failing cleanup is recorded only as a warning value (cleanup is a total
function into an optional warning, so it never raises). -/
theorem cleanup_outcome_never_changes_response (env : String → Option String)
    (pb : ProviderBehavior) (c₁ c₂ : CleanupOutcome) :
    (handler env { pb with cleanupOutcome := c₁ }).1 =
      (handler env { pb with cleanupOutcome := c₂ }).1 ∧
    (∀ m, cleanup (CleanupOutcome.errored m) = some ("Cleanup failed: " ++ m)) ∧
    cleanup CleanupOutcome.timedOut = some ("Cleanup failed: Cleanup timeout") := by
  refine ⟨?_, fun m => rfl, rfl⟩
  cases hv : validateEnv env with
  | error m => simp [handler, hv]
  | ok u =>
    cases hc : pb.createOutcome with
    | error m => simp [handler, hv, hc]
    | ok v =>
      cases hw : (waitForContainer pb.poll).result with
      | error m => simp [handler, hv, hc, hw]
      | ok r => simp [handler, hv, hc, hw]

/-- C7: on a terminal run, a failing log fetch does not abort the run: the
placeholder string carrying the fetch error message is returned as the logs
field and the status is still derived from the exit code exactly as with
logs present. -/
theorem log_fetch_failure_degrades_gracefully (env : String → Option String)
    (pb : ProviderBehavior) (r : ContainerResult) (m : String)
    (hv : validateEnv env = Except.ok ()) (hc : pb.createOutcome = Except.ok ())
    (hw : (waitForContainer pb.poll).result = Except.ok r)
    (hl : pb.logOutcome = Except.error m) :
    (handler env pb).1 = Except.ok
      ⟨if r.exitCode = some 0 then 200 else 500,
       JsonBody.completion (decide (r.exitCode = some 0)) r.state r.exitCode
         ("[LOG FETCH FAILED]: " ++ m)⟩ := by
  rw [handler_completion env pb r hv hc hw]
  simp [fetchLogs, hl]

/-- Witness for C7 at a run whose log fetch throws. -/
theorem log_fetch_failure_degrades_gracefully_witness :
    (handler envAll pbLogErr).1 = Except.ok
      ⟨200, JsonBody.completion true "Succeeded" (some 0)
        "[LOG FETCH FAILED]: boom"⟩ := by
  have h := log_fetch_failure_degrades_gracefully envAll pbLogErr
    ⟨"Succeeded", some 0⟩ "boom" rfl rfl rfl rfl
  simpa using h

/-- C9: every completion-shaped response carries a terminal state tag: the
handler builds the completion body only from a waitForContainer result, and
waitForContainer only returns results whose state satisfies isTerminal, so
the tags Running and Unknown never appear in a completion response. -/
theorem completion_response_state_terminal (env : String → Option String)
    (pb : ProviderBehavior) (st : Nat) (b : Bool) (s : String)
    (e : Option Int) (l : String)
    (h : (handler env pb).1 =
      Except.ok ⟨st, JsonBody.completion b s e l⟩) :
    isTerminal s = true := by
  cases hv : validateEnv env with
  | error m => simp [handler, hv] at h
  | ok u =>
    cases hc : pb.createOutcome with
    | error m =>
      rw [handler_createError env pb m hv hc] at h
      simp at h
    | ok v =>
      have hc' : pb.createOutcome = Except.ok () := hc
      cases hw : (waitForContainer pb.poll).result with
      | error m =>
        rw [handler_waitError env pb m hv hc' hw] at h
        simp at h
      | ok r =>
        rw [handler_completion env pb r hv hc' hw] at h
        simp only [Except.ok.injEq, HttpResponse.mk.injEq,
          JsonBody.completion.injEq] at h
        rw [← h.2.2.1]
        exact waitAux_ok_terminal pb.poll MAX_POLLING_ATTEMPTS 0 r hw

/-- Witness for C9 at a concrete completion response. -/
theorem completion_response_state_terminal_witness :
    isTerminal "Succeeded" = true :=
  completion_response_state_terminal envAll pbTerm0 200 true "Succeeded"
    (some 0) "LOGS" rfl

/-- C10: the status code and success flag of a completion response depend only
on the exit code and not on the terminal state tag: two completed runs whose
observed exit codes are equal receive the same status and the same success
value, whatever their terminal states. -/
theorem status_depends_only_on_exit_code (env₁ env₂ : String → Option String)
    (pb₁ pb₂ : ProviderBehavior) (r₁ r₂ : ContainerResult)
    (hv₁ : validateEnv env₁ = Except.ok ())
    (hv₂ : validateEnv env₂ = Except.ok ())
    (hc₁ : pb₁.createOutcome = Except.ok ())
    (hc₂ : pb₂.createOutcome = Except.ok ())
    (hw₁ : (waitForContainer pb₁.poll).result = Except.ok r₁)
    (hw₂ : (waitForContainer pb₂.poll).result = Except.ok r₂)
    (he : r₁.exitCode = r₂.exitCode) :
    ∃ resp₁ resp₂ : HttpResponse,
      (handler env₁ pb₁).1 = Except.ok resp₁ ∧
      (handler env₂ pb₂).1 = Except.ok resp₂ ∧
      resp₁.status = resp₂.status ∧
      resp₁.body.successOf = resp₂.body.successOf := by
  refine ⟨⟨if r₁.exitCode = some 0 then 200 else 500,
      JsonBody.completion (decide (r₁.exitCode = some 0)) r₁.state r₁.exitCode
        (fetchLogs pb₁.logOutcome)⟩,
    ⟨if r₂.exitCode = some 0 then 200 else 500,
      JsonBody.completion (decide (r₂.exitCode = some 0)) r₂.state r₂.exitCode
        (fetchLogs pb₂.logOutcome)⟩,
    ?_, ?_, ?_, ?_⟩
  · rw [handler_completion env₁ pb₁ r₁ hv₁ hc₁ hw₁]
  · rw [handler_completion env₂ pb₂ r₂ hv₂ hc₂ hw₂]
  · simp only [he]
  · simp only [JsonBody.successOf, he]

/-- Witness for C10: a Succeeded run and a Failed run, both with exit code 0,
receive the same status and success flag. -/
theorem status_depends_only_on_exit_code_witness :
    ∃ resp₁ resp₂ : HttpResponse,
      (handler envAll pbTerm0).1 = Except.ok resp₁ ∧
      (handler envAll pbFailed0).1 = Except.ok resp₂ ∧
      resp₁.status = resp₂.status ∧
      resp₁.body.successOf = resp₂.body.successOf :=
  status_depends_only_on_exit_code envAll envAll pbTerm0 pbFailed0
    ⟨"Succeeded", some 0⟩ ⟨"Failed", some 0⟩ rfl rfl rfl rfl rfl rfl rfl

end RunContainer

namespace BlobApp

/-- C8: the blob uploader exits with code 0 exactly when the connection
string is present, every executed step succeeded, and either the container
already existed or it was absent and the single create call succeeded.
With the connection string JS-falsy it raises before any storage call (zero
calls issued). No step is ever retried (every call count is at most one);
when the exists check reports the container present no create call is made,
and when it reports it absent exactly one create call is made. -/
theorem uploader_fatal_and_idempotent (connStr : Option String)
    (bp : BlobProvider) :
    ((main connStr bp).1 = 0 ↔
      (jsFalsyStr connStr = false ∧ bp.uploadOutcome = Except.ok () ∧
        (bp.existsOutcome = Except.ok true ∨
         (bp.existsOutcome = Except.ok false ∧
          bp.createOutcome = Except.ok ())))) ∧
    (jsFalsyStr connStr = true → main connStr bp = (1, ⟨0, 0, 0⟩)) ∧
    (main connStr bp).2.existsCalls ≤ 1 ∧
    (main connStr bp).2.createCalls ≤ 1 ∧
    (main connStr bp).2.uploadCalls ≤ 1 ∧
    (jsFalsyStr connStr = false → bp.existsOutcome = Except.ok true →
      (main connStr bp).2.createCalls = 0) ∧
    (jsFalsyStr connStr = false → bp.existsOutcome = Except.ok false →
      (main connStr bp).2.createCalls = 1) := by
  cases hcs : jsFalsyStr connStr with
  | true => simp [main, createBlobServiceClient, hcs]
  | false =>
    cases hex : bp.existsOutcome with
    | error m =>
      cases hup : bp.uploadOutcome with
      | error m₂ => simp [main, createBlobServiceClient, ensureContainerExists, hcs, hex, hup]
      | ok u => simp [main, createBlobServiceClient, ensureContainerExists, hcs, hex, hup]
    | ok b =>
      cases b with
      | true =>
        cases hup : bp.uploadOutcome with
        | error m₂ => simp [main, createBlobServiceClient, ensureContainerExists, hcs, hex, hup]
        | ok u => simp [main, createBlobServiceClient, ensureContainerExists, hcs, hex, hup]
      | false =>
        cases hcr : bp.createOutcome with
        | error m₂ =>
          simp [main, createBlobServiceClient, ensureContainerExists, hcs, hex, hcr]
        | ok v =>
          cases hup : bp.uploadOutcome with
          | error m₃ =>
            simp [main, createBlobServiceClient, ensureContainerExists, hcs, hex, hcr, hup]
          | ok u =>
            simp [main, createBlobServiceClient, ensureContainerExists, hcs, hex, hcr, hup]

/-- Witness for C8: a missing connection string exits 1 with zero storage
calls; with the container present no create call is issued; with it absent
exactly one create call is issued. -/
theorem uploader_fatal_and_idempotent_witness :
    main none ⟨Except.ok true, Except.ok (), Except.ok ()⟩ = (1, ⟨0, 0, 0⟩) ∧
    (main (some "cs") ⟨Except.ok true, Except.ok (), Except.ok ()⟩).2.createCalls = 0 ∧
    (main (some "cs") ⟨Except.ok false, Except.ok (), Except.ok ()⟩).2.createCalls = 1 :=
  ⟨(uploader_fatal_and_idempotent none
      ⟨Except.ok true, Except.ok (), Except.ok ()⟩).2.1 rfl,
   (uploader_fatal_and_idempotent (some "cs")
      ⟨Except.ok true, Except.ok (), Except.ok ()⟩).2.2.2.2.2.1 rfl rfl,
   (uploader_fatal_and_idempotent (some "cs")
      ⟨Except.ok false, Except.ok (), Except.ok ()⟩).2.2.2.2.2.2 rfl rfl⟩

end BlobApp
